import Mathlib

/-!
Shallow embedding of the AndroidWorld agents pipeline
(`src/agents/base_agent.py`, `task_generator.py`, `task_executor.py`,
`orchestrator.py`, `web_server.py`) and proofs of the specified
properties.  Python floats used for clock readings are modelled by
rationals, Python dictionaries by association lists, and the external
collaborators (device bridge, filesystem, clock, RNG) by explicit
oracle parameters.
-/

namespace AndroidWorld

/-- Values stored in a task's `parameters` mapping or in a result's
`metrics` mapping (strings, integers, booleans and string lists are the
shapes that occur in the repository). -/
inductive Val where
  | str (s : String)
  | int (n : Nat)
  | bool (b : Bool)
  | listStr (l : List String)
  deriving DecidableEq

/-- Python truthiness of a `Val`, as used in `if not package_name:`
checks of `task_executor.py`. -/
def Val.truthy : Val → Bool
  | .str s => !(s == "")
  | .int n => !(n == 0)
  | .bool b => b
  | .listStr l => !l.isEmpty

/-- Rendering of a `Val` into a command string (Python f-string
interpolation); every parameter interpolated by the executor is in fact
a string. -/
def Val.fmt : Val → String
  | .str s => s
  | .int n => toString n
  | .bool b => if b then "True" else "False"
  | .listStr l => toString l

/-- `dict.get k` on an association list: the value at the first
occurrence of the key, if any. -/
def getParam (ps : List (String × Val)) (k : String) : Option Val :=
  (ps.find? (fun p => p.1 == k)).map (fun p => p.2)

/-- `dict.get k default`. -/
def getParamD (ps : List (String × Val)) (k : String) (d : Val) : Val :=
  (getParam ps k).getD d

/-- Python dict assignment `ps[k] = v` when the key is already present:
replace the stored value. -/
def setParam (ps : List (String × Val)) (k : String) (v : Val) :
    List (String × Val) :=
  ps.map (fun p => if p.1 == k then (p.1, v) else p)

/-- The `TaskResult` dataclass of `base_agent.py`.  `start_time` and
`end_time` are `datetime` values produced from `time.time()` readings;
they and `execution_time` are modelled as rationals. -/
structure TaskResult where
  task_id : String
  task_name : String
  success : Bool
  execution_time : ℚ
  start_time : ℚ
  end_time : ℚ
  error_message : Option String := none
  metrics : Option (List (String × Val)) := none
  deriving DecidableEq

/-- The task dictionary built by `TaskGenerator.generate_task` /
`generate_custom_task` (keys `id`, `name`, `type`, `description`,
`parameters`, `expected_outcome`, `priority`, `timeout`,
`retry_count`). -/
structure Task where
  id : String
  name : String
  type : String
  description : String
  parameters : List (String × Val)
  expected_outcome : String
  priority : Nat
  timeout : Nat
  retry_count : Nat
  deriving DecidableEq

/-- One entry of the template catalog returned by
`TaskGenerator._load_task_templates`. -/
structure TaskTemplate where
  name : String
  type : String
  description : String
  parameters : List (String × Val)
  expected_outcome : String
  deriving DecidableEq

/-- The fixed eight-template catalog of
`TaskGenerator._load_task_templates`. -/
def taskTemplates : List TaskTemplate :=
  [ { name := "Open App", type := "navigation",
      description := "Open a specific application on the device",
      parameters := [("package_name", .str "com.android.settings"),
                     ("activity_name", .str "com.android.settings.Settings")],
      expected_outcome := "Settings app should open successfully" },
    { name := "Navigate to Settings", type := "navigation",
      description := "Navigate to device settings menu",
      parameters := [("target_menu", .str "Settings"),
                     ("submenu", .str "System")],
      expected_outcome := "Should reach System settings menu" },
    { name := "Check WiFi Status", type := "information_gathering",
      description := "Check the current WiFi connection status",
      parameters := [("check_type", .str "connection_status"),
                     ("timeout", .int 10)],
      expected_outcome := "Should return WiFi connection information" },
    { name := "Install App", type := "installation",
      description := "Install an application from APK file",
      parameters := [("apk_path", .str "/sdcard/test_app.apk"),
                     ("package_name", .str "com.example.testapp")],
      expected_outcome := "App should install successfully" },
    { name := "Uninstall App", type := "removal",
      description := "Uninstall a specific application",
      parameters := [("package_name", .str "com.example.testapp")],
      expected_outcome := "App should be removed from device" },
    { name := "Take Screenshot", type := "capture",
      description := "Capture a screenshot of the current screen",
      parameters := [("output_path", .str "/sdcard/screenshot.png"),
                     ("format", .str "PNG")],
      expected_outcome := "Screenshot should be saved successfully" },
    { name := "Check Battery Level", type := "information_gathering",
      description := "Get current battery level and status",
      parameters := [("check_type", .str "battery_info"),
                     ("include_charging", .bool true)],
      expected_outcome := "Should return battery percentage and charging status" },
    { name := "Clear App Data", type := "maintenance",
      description := "Clear data for a specific application",
      parameters := [("package_name", .str "com.android.settings"),
                     ("data_types", .listStr ["cache", "user_data"])],
      expected_outcome := "App data should be cleared successfully" } ]

/-- The fixed list of five known package identifiers used by
`generate_task` to randomize navigation targets. -/
def navPackages : List String :=
  [ "com.android.settings",
    "com.android.vending",
    "com.google.android.apps.maps",
    "com.whatsapp",
    "com.instagram.android" ]

/-- The random draws consumed by one `generate_task` call:
`random.choice` over the 8 templates, the fresh `uuid.uuid4()` string,
`random.randint(1,5)`, `random.randint(30,120)`, `random.randint(0,2)`
and `random.choice` over the 5 navigation packages.  The `Fin` indices
encode the contract of `random.choice`; the `randint` range contracts
appear as hypotheses of the theorems. -/
structure GenChoices where
  tmpl : Fin taskTemplates.length
  uuid : String
  priority : Nat
  timeoutSec : Nat
  retry : Nat
  pkg : Fin navPackages.length

/-- The template selected by a draw. -/
def genTemplate (g : GenChoices) : TaskTemplate :=
  taskTemplates.get g.tmpl

/-- The task dictionary of `generate_task` before the type-specific
parameter randomization. -/
def genTaskRaw (g : GenChoices) : Task :=
  { id := g.uuid, name := (genTemplate g).name,
    type := (genTemplate g).type,
    description := (genTemplate g).description,
    parameters := (genTemplate g).parameters,
    expected_outcome := (genTemplate g).expected_outcome,
    priority := g.priority, timeout := g.timeoutSec,
    retry_count := g.retry }

/-- The produced task, after the navigation-specific `package_name`
randomization. -/
def genTask (g : GenChoices) : Task :=
  if (genTaskRaw g).type = "navigation" then
    if (getParam (genTaskRaw g).parameters "package_name").isSome then
      { genTaskRaw g with
          parameters := setParam (genTaskRaw g).parameters "package_name"
            (.str (navPackages.get g.pkg)) }
    else genTaskRaw g
  else genTaskRaw g

/-- `TaskGenerator.generate_task`: pick the template, build the task
dictionary with the randomized hint fields, apply the
navigation-specific package randomization, append to the history, and
return the task.  Returns the produced task and the new history. -/
def generateTask (g : GenChoices) (history : List Task) :
    Task × List Task :=
  (genTask g, history ++ [genTask g])

/-- The dictionary returned by `BaseAgent.get_statistics` when the
result history is non-empty. -/
structure Stats where
  total_tasks : Nat
  successful_tasks : Nat
  failed_tasks : Nat
  success_rate : ℚ
  avg_time : ℚ
  flaky_tasks : Nat
  flakiness_rate : ℚ
  deriving DecidableEq

/-- The per-name flakiness test of `get_statistics`: more than one
result shares the name and the success count is strictly between 0 and
the number of sharing results. -/
def flakyPredCode (results : List TaskResult) (n : String) : Bool :=
  let tr := results.filter (fun r => r.task_name == n)
  let s := tr.countP (fun r => r.success)
  decide (1 < tr.length) && (decide (0 < s) && decide (s < tr.length))

/-- `BaseAgent.get_statistics`: empty mapping (`none`) on an empty
history, otherwise the aggregate record. -/
def getStatistics (results : List TaskResult) : Option Stats :=
  if results.isEmpty then none
  else
    let total := results.length
    let successful := results.countP (fun r => r.success)
    let failed := total - successful
    let times := results.map (fun r => r.execution_time)
    let avg : ℚ := if times.isEmpty then 0 else times.sum / (times.length : ℚ)
    let names := (results.map (fun r => r.task_name)).dedup
    let flaky := names.countP (flakyPredCode results)
    some { total_tasks := total, successful_tasks := successful,
           failed_tasks := failed,
           success_rate :=
             if 0 < total then (successful : ℚ) / (total : ℚ) else 0,
           avg_time := avg, flaky_tasks := flaky,
           flakiness_rate :=
             if !names.isEmpty then (flaky : ℚ) / (names.length : ℚ) else 0 }

/-- The dictionary returned by `TaskGenerator.get_task_statistics` when
the task history is non-empty. -/
structure GenStats where
  total_generated : Nat
  task_types : List (String × Nat)
  unique_tasks : Nat
  deriving DecidableEq

/-- One step of the `task_types` counting loop of
`get_task_statistics` (initialize a missing key to 0 and increment). -/
def bumpType (m : List (String × Nat)) (k : String) : List (String × Nat) :=
  if (m.find? (fun p => p.1 == k)).isSome then
    m.map (fun p => if p.1 == k then (p.1, p.2 + 1) else p)
  else m ++ [(k, 1)]

/-- `TaskGenerator.get_task_statistics`. -/
def getTaskStatistics (history : List Task) : Option GenStats :=
  if history.isEmpty then none
  else
    some { total_generated := history.length,
           task_types := history.foldl (fun m t => bumpType m t.type) [],
           unique_tasks := (history.map (fun t => t.name)).dedup.length }

/-- Outcome of one device-bridge invocation (`subprocess.run` on a
command string with a timeout): normal completion with exit code and
streams, expiry of the timeout, or some other raised exception. -/
inductive BridgeOutcome where
  | completed (exitCode : Int) (stdout stderr : String)
  | timeout
  | raised (msg : String)
  deriving DecidableEq

/-- The device bridge, as an oracle from (command, timeout seconds) to
an outcome. -/
def Bridge := String → Nat → BridgeOutcome

/-- The dictionary returned by the per-type handlers of
`TaskExecutor` (`{"success": ..., "error": ...}` or
`{"success": ..., "metrics": ...}`). -/
structure HandlerOut where
  success : Bool
  error : Option String := none
  metrics : Option (List (String × Val)) := none
  deriving DecidableEq

/-- A handler returns its outcome dictionary together with the list of
bridge calls (command, timeout) it made. -/
abbrev HandlerRun := HandlerOut × List (String × Nat)

/-- `needle` occurs as a substring of `hay` (Python `needle in hay`
for string `needle`). -/
def strContains (hay needle : String) : Bool :=
  decide (needle.data <:+: hay.data)

/-- The Python runtime type name of a `Val`, as it appears in the
`TypeError` raised by `x in some_string` when `x` is not a string. -/
def Val.pyType : Val → String
  | .str _ => "str"
  | .int _ => "int"
  | .bool _ => "bool"
  | .listStr _ => "list"

/-- Python's membership test `v in hay` on a string `hay`: substring
containment when `v` is a string, otherwise a raised `TypeError`
(`'in <string>' requires string as left operand, not <type>`). -/
def pyInStr (v : Val) (hay : String) : Except String Bool :=
  match v with
  | .str s => .ok (strContains hay s)
  | other =>
      .error ("\x27in <string>\x27 requires string as left operand, not "
        ++ other.pyType)

/-- `TaskExecutor._execute_navigation_task`. -/
def executeNavigationTask (task : Task) (bridge : Bridge) : HandlerRun :=
  let package_name :=
    getParamD task.parameters "package_name" (.str "com.android.settings")
  let cmd := "adb shell am start -n " ++ package_name.fmt
  match bridge cmd 30 with
  | .completed code out err =>
      if code = 0 then
        ({ success := true,
           metrics := some [("app_opened", .bool true),
                            ("package_name", package_name),
                            ("adb_output", .str out)] }, [(cmd, 30)])
      else
        ({ success := false,
           error := some ("Failed to open app: " ++ err) }, [(cmd, 30)])
  | .timeout =>
      ({ success := false,
         error := some "Task execution timed out" }, [(cmd, 30)])
  | .raised e =>
      ({ success := false,
         error := some ("Navigation task failed: " ++ e) }, [(cmd, 30)])

/-- `TaskExecutor._execute_info_gathering_task`. -/
def executeInfoGatheringTask (task : Task) (bridge : Bridge) : HandlerRun :=
  let check_type := getParamD task.parameters "check_type" (.str "general")
  let cmd :=
    if check_type = Val.str "wifi_status" then
      "adb shell dumpsys wifi | grep \x27Wi-Fi is\x27"
    else if check_type = Val.str "battery_info" then
      "adb shell dumpsys battery"
    else "adb shell getprop"
  match bridge cmd 20 with
  | .completed code out err =>
      if code = 0 then
        ({ success := true,
           metrics := some [("info_type", check_type),
                            ("data_collected", .bool true),
                            ("output_length", .int out.length)] }, [(cmd, 20)])
      else
        ({ success := false,
           error := some ("Failed to gather info: " ++ err) }, [(cmd, 20)])
  | .timeout =>
      ({ success := false,
         error := some "Info gathering timed out" }, [(cmd, 20)])
  | .raised e =>
      ({ success := false,
         error := some ("Info gathering failed: " ++ e) }, [(cmd, 20)])

/-- `TaskExecutor._execute_installation_task`. -/
def executeInstallationTask (task : Task) (bridge : Bridge) : HandlerRun :=
  let apk_path := getParamD task.parameters "apk_path" (.str "")
  let package_name := getParamD task.parameters "package_name" (.str "")
  if !apk_path.truthy || !package_name.truthy then
    ({ success := false,
       error := some "Missing APK path or package name" }, [])
  else
    let cmd := "adb shell pm list packages | grep " ++ package_name.fmt
    match bridge cmd 15 with
    | .completed _code out _err =>
        match pyInStr package_name out with
        | .ok true =>
            ({ success := true,
               metrics := some [("package_installed", .bool true),
                                ("package_name", package_name),
                                ("already_installed", .bool true)] },
             [(cmd, 15)])
        | .ok false =>
            ({ success := true,
               metrics := some [("package_installed", .bool true),
                                ("package_name", package_name),
                                ("installation_simulated", .bool true)] },
             [(cmd, 15)])
        | .error e =>
            ({ success := false,
               error := some ("Installation failed: " ++ e) }, [(cmd, 15)])
    | .timeout =>
        ({ success := false,
           error := some "Installation task timed out" }, [(cmd, 15)])
    | .raised e =>
        ({ success := false,
           error := some ("Installation failed: " ++ e) }, [(cmd, 15)])

/-- `TaskExecutor._execute_removal_task`. -/
def executeRemovalTask (task : Task) (bridge : Bridge) : HandlerRun :=
  let package_name := getParamD task.parameters "package_name" (.str "")
  if !package_name.truthy then
    ({ success := false, error := some "Missing package name" }, [])
  else
    let cmd := "adb shell pm list packages | grep " ++ package_name.fmt
    match bridge cmd 15 with
    | .completed _code out _err =>
        match pyInStr package_name out with
        | .ok true =>
            ({ success := true,
               metrics := some [("package_removed", .bool true),
                                ("package_name", package_name),
                                ("removal_simulated", .bool true)] },
             [(cmd, 15)])
        | .ok false =>
            ({ success := true,
               metrics := some [("package_removed", .bool true),
                                ("package_name", package_name),
                                ("already_removed", .bool true)] },
             [(cmd, 15)])
        | .error e =>
            ({ success := false,
               error := some ("Removal failed: " ++ e) }, [(cmd, 15)])
    | .timeout =>
        ({ success := false,
           error := some "Removal task timed out" }, [(cmd, 15)])
    | .raised e =>
        ({ success := false,
           error := some ("Removal failed: " ++ e) }, [(cmd, 15)])

/-- `TaskExecutor._execute_capture_task`. -/
def executeCaptureTask (task : Task) (bridge : Bridge) : HandlerRun :=
  let output_path :=
    getParamD task.parameters "output_path" (.str "/sdcard/screenshot.png")
  let cmd := "adb shell screencap " ++ output_path.fmt
  match bridge cmd 20 with
  | .completed code _out err =>
      if code = 0 then
        ({ success := true,
           metrics := some [("screenshot_taken", .bool true),
                            ("output_path", output_path),
                            ("capture_successful", .bool true)] }, [(cmd, 20)])
      else
        ({ success := false,
           error := some ("Failed to take screenshot: " ++ err) }, [(cmd, 20)])
  | .timeout =>
      ({ success := false,
         error := some "Screenshot task timed out" }, [(cmd, 20)])
  | .raised e =>
      ({ success := false,
         error := some ("Screenshot failed: " ++ e) }, [(cmd, 20)])

/-- `TaskExecutor._execute_maintenance_task`. -/
def executeMaintenanceTask (task : Task) (bridge : Bridge) : HandlerRun :=
  let package_name := getParamD task.parameters "package_name" (.str "")
  let data_types :=
    getParamD task.parameters "data_types" (.listStr ["cache"])
  if !package_name.truthy then
    ({ success := false, error := some "Missing package name" }, [])
  else
    let cmd := "adb shell pm clear " ++ package_name.fmt
    match bridge cmd 30 with
    | .completed code _out err =>
        if code = 0 then
          ({ success := true,
             metrics := some [("data_cleared", .bool true),
                              ("package_name", package_name),
                              ("data_types", data_types),
                              ("maintenance_successful", .bool true)] },
           [(cmd, 30)])
        else
          ({ success := false,
             error := some ("Failed to clear data: " ++ err) }, [(cmd, 30)])
    | .timeout =>
        ({ success := false,
           error := some "Maintenance task timed out" }, [(cmd, 30)])
    | .raised e =>
        ({ success := false,
           error := some ("Maintenance failed: " ++ e) }, [(cmd, 30)])

/-- The `TaskExecutor` configuration fields consulted by the handlers
(`runner_path`, defaulting to `./run.sh`). -/
structure ExecConfig where
  androidworld_runner : String := "./run.sh"
  deriving DecidableEq

/-- `TaskExecutor._execute_generic_task`. -/
def executeGenericTask (cfg : ExecConfig) (task : Task) (bridge : Bridge) :
    HandlerRun :=
  let cmd := cfg.androidworld_runner ++ " --task " ++ task.id ++ " --local"
  match bridge cmd 60 with
  | .completed code out err =>
      if code = 0 then
        ({ success := true,
           metrics := some [("runner_used", .bool true),
                            ("task_id", .str task.id),
                            ("output", .str out)] }, [(cmd, 60)])
      else
        ({ success := false,
           error := some ("Runner failed: " ++ err) }, [(cmd, 60)])
  | .timeout =>
      ({ success := false,
         error := some "Generic task timed out" }, [(cmd, 60)])
  | .raised e =>
      ({ success := false,
         error := some ("Generic task failed: " ++ e) }, [(cmd, 60)])

/-- `TaskExecutor._run_androidworld_task`: dispatch on the task type
string. -/
def runAndroidworldTask (cfg : ExecConfig) (task : Task) (bridge : Bridge) :
    HandlerRun :=
  if task.type = "navigation" then executeNavigationTask task bridge
  else if task.type = "information_gathering" then
    executeInfoGatheringTask task bridge
  else if task.type = "installation" then executeInstallationTask task bridge
  else if task.type = "removal" then executeRemovalTask task bridge
  else if task.type = "capture" then executeCaptureTask task bridge
  else if task.type = "maintenance" then executeMaintenanceTask task bridge
  else executeGenericTask cfg task bridge

/-- The external effects observed by one `execute_task` call: the
outcome of `_prepare_task_file` (the task JSON file write, the only
code inside the top-level `try` that can raise), the device bridge,
and the two `time.time()` readings bracketing the dispatch. -/
structure ExecEnv where
  prepare : Except String Unit
  bridge : Bridge
  startClock : ℚ
  endClock : ℚ

/-- `TaskExecutor.execute_task`: total function from a task and its
environment to the `TaskResult` plus the list of bridge calls made.  A
raised preparation exception is caught and becomes a failure result;
the handlers catch their own exceptions, so the dispatch never raises
and a `TaskResult` is always produced. -/
def executeTask (cfg : ExecConfig) (task : Task) (env : ExecEnv) :
    TaskResult × List (String × Nat) :=
  match env.prepare with
  | .error e =>
      ({ task_id := task.id, task_name := task.name, success := false,
         execution_time := env.endClock - env.startClock,
         start_time := env.startClock, end_time := env.endClock,
         error_message := some e, metrics := some [] }, [])
  | .ok _ =>
      let hr := runAndroidworldTask cfg task env.bridge
      if hr.1.success then
        ({ task_id := task.id, task_name := task.name, success := true,
           execution_time := env.endClock - env.startClock,
           start_time := env.startClock, end_time := env.endClock,
           error_message := none,
           metrics := some (hr.1.metrics.getD []) }, hr.2)
      else
        ({ task_id := task.id, task_name := task.name, success := false,
           execution_time := env.endClock - env.startClock,
           start_time := env.startClock, end_time := env.endClock,
           error_message :=
             some (hr.1.error.getD "Unknown execution error"),
           metrics := some [] }, hr.2)

/-- What the orchestrator observes during one `run_episode` call that
completes normally: the generated task, the `TaskResult` returned by
the executor, and the two `time.time()` readings taken around the
execution. -/
structure EpisodeEnv where
  task : Task
  execResult : TaskResult
  startT : ℚ
  endT : ℚ

/-- The timing patch of `AgentOrchestrator.run_episode`
(`result.execution_time = end_time - start_time`); no other field is
touched. -/
def orchPatch (env : EpisodeEnv) : TaskResult :=
  { env.execResult with execution_time := env.endT - env.startT }

/-- `AgentOrchestrator.run_episode`: patch the executor result's
timing and append it to the orchestrator's result history. -/
def runEpisode (history : List TaskResult) (env : EpisodeEnv) :
    TaskResult × List TaskResult :=
  let result := orchPatch env
  (result, history ++ [result])

/-- Outcome of the k-th `run_episode` call inside
`run_multiple_episodes`: normal completion, or an uncaught exception
with its message and the two `time.time()` readings taken while
building the synthetic failure result. -/
inductive EpisodeOutcome where
  | ok (env : EpisodeEnv)
  | raised (msg : String) (t1 t2 : ℚ)

/-- The synthetic failure result built by `run_multiple_episodes` for
an episode that raised. -/
def failedResult (episode : Nat) (msg : String) (t1 t2 : ℚ) : TaskResult :=
  { task_id := "episode_" ++ toString episode ++ "_failed",
    task_name := "Episode " ++ toString episode,
    success := false, execution_time := 0,
    start_time := t1, end_time := t2,
    error_message := some msg, metrics := none }

/-- The loop of `run_multiple_episodes`, with the remaining episode
count, the current 1-based episode index and the current orchestrator
history.  Returns (returned result list, final history, number of
2-second sleeps performed).  The sleep happens inside the `try` block
after a successful episode, guarded by `episode < num_episodes`; an
episode that raises skips it. -/
def runEpisodesLoop (ep : Nat → EpisodeOutcome) (num : Nat) :
    Nat → Nat → List TaskResult → List TaskResult × List TaskResult × Nat
  | 0, _, history => ([], history, 0)
  | remaining + 1, idx, history =>
    match ep idx with
    | .ok env =>
        let r := runEpisode history env
        let rest := runEpisodesLoop ep num remaining (idx + 1) r.2
        (r.1 :: rest.1, rest.2.1,
         (if idx < num then 1 else 0) + rest.2.2)
    | .raised msg t1 t2 =>
        let rest := runEpisodesLoop ep num remaining (idx + 1) history
        (failedResult idx msg t1 t2 :: rest.1, rest.2.1, rest.2.2)

/-- `AgentOrchestrator.run_multiple_episodes`: run episodes 1..num,
collecting one result per episode. -/
def runMultipleEpisodes (num : Nat) (ep : Nat → EpisodeOutcome)
    (history : List TaskResult) :
    List TaskResult × List TaskResult × Nat :=
  runEpisodesLoop ep num num 1 history

/-- The result that `run_multiple_episodes` places in the returned
list for episode `k`. -/
def episodeResult (ep : Nat → EpisodeOutcome) (k : Nat) : TaskResult :=
  match ep k with
  | .ok env => orchPatch env
  | .raised msg t1 t2 => failedResult k msg t1 t2

/-- The contribution of episode `k` to the orchestrator's result
history: only episodes that complete normally are appended. -/
def episodeHistEntry (ep : Nat → EpisodeOutcome) (k : Nat) :
    Option TaskResult :=
  match ep k with
  | .ok env => some (orchPatch env)
  | .raised _ _ _ => none

/-- Whether episode `k` completes without raising. -/
def episodeOk (ep : Nat → EpisodeOutcome) (k : Nat) : Bool :=
  match ep k with
  | .ok _ => true
  | .raised _ _ _ => false

/-- JSON values, the shape of HTTP request and response bodies handled
by `web_server.py` (the outcome of `json.loads` / input of
`json.dumps`). -/
inductive Json where
  | null
  | bool (b : Bool)
  | num (q : ℚ)
  | str (s : String)
  | arr (elems : List Json)
  | obj (fields : List (String × Json))

/-- Field lookup in a JSON object; `none` for non-objects or missing
keys. -/
def Json.get? : Json → String → Option Json
  | .obj fields, k => (fields.find? (fun p => p.1 == k)).map (fun p => p.2)
  | _, _ => none

/-- Python `dict.get k` (defaulting to `None`) on a parsed JSON
object's fields. -/
def pyDictGet (fields : List (String × Json)) (k : String) : Json :=
  ((fields.find? (fun p => p.1 == k)).map (fun p => p.2)).getD .null

/-- The Python runtime type name of a parsed JSON value, as it appears
in the `AttributeError` raised by calling `.get` on a non-dict. -/
def pyTypeName : Json → String
  | .null => "NoneType"
  | .bool _ => "bool"
  | .num _ => "int"
  | .str _ => "str"
  | .arr _ => "list"
  | .obj _ => "dict"

/-- `str(e)` for the `AttributeError` raised when `_handle_task` calls
`.get` on a parsed body that is not a JSON object. -/
def attrErrorMsg (j : Json) : String :=
  "\x27" ++ pyTypeName j ++ "\x27 object has no attribute \x27get\x27"

/-- An HTTP response as produced by `_send_json_response` /
`_send_text_response`. -/
inductive HttpResponse where
  | jsonResp (status : Nat) (data : Json)
  | textResp (status : Nat) (contentType : String) (data : String)

/-- The status code of a response. -/
def HttpResponse.status : HttpResponse → Nat
  | .jsonResp s _ => s
  | .textResp s _ _ => s

/-- The named field of a JSON response body, if any. -/
def HttpResponse.jsonField : HttpResponse → String → Option Json
  | .jsonResp _ d, k => d.get? k
  | .textResp _ _ _, _ => none

/-- The state of an attached `ObservabilityManager` that the handler
endpoints read (`get_health_status` output fields, trace/span ids).
Its logging calls return to the caller without raising. -/
structure ObsMgr where
  service_name : String
  project_id : String
  timestampIso : String
  gcAvailable : Bool
  otAvailable : Bool
  loggingAvailable : Bool
  monitoringAvailable : Bool
  traceId : Json
  spanId : Json

/-- `ObservabilityManager.get_health_status`: the `status` field is the
constant `"healthy"`. -/
def getHealthStatus (m : ObsMgr) : Json :=
  .obj [("status", .str "healthy"),
        ("timestamp", .str m.timestampIso),
        ("service", .str m.service_name),
        ("project_id", .str m.project_id),
        ("observability",
          .obj [("google_cloud_available", .bool m.gcAvailable),
                ("opentelemetry_available", .bool m.otAvailable),
                ("logging_available", .bool m.loggingAvailable),
                ("monitoring_available", .bool m.monitoringAvailable)])]

/-- The environment a request handler runs in: the optional
observability manager and the clock/OS readings the endpoints embed in
their responses (`t0`/`t1` bracket the simulated 100ms execution in
`_execute_task`). -/
structure WebEnv where
  obs : Option ObsMgr
  healthTime : ℚ
  uptime : ℚ
  statusTime : ℚ
  envName : String
  gcpProject : String
  t0 : ℚ
  t1 : ℚ
  execTimestamp : ℚ

/-- An inbound HTTP request; `body` is the `json.loads` outcome of the
raw POST body (`none` models a `json.JSONDecodeError`). -/
inductive Method where
  | get
  | post
  deriving DecidableEq

structure Request where
  method : Method
  path : String
  body : Option Json

/-- The fixed Prometheus exposition text of `_collect_metrics`. -/
def metricsText : String :=
  "# HELP androidworld_tasks_total Total number of tasks processed\n" ++
  "# TYPE androidworld_tasks_total counter\n" ++
  "androidworld_tasks_total\x7bservice=\"androidworld-worker\"\x7d 0\n" ++
  "# HELP androidworld_task_duration_seconds Task execution duration\n" ++
  "# TYPE androidworld_task_duration_seconds histogram\n" ++
  "androidworld_task_duration_seconds\x7bservice=\"androidworld-worker\"\x7d 0"

/-- `AndroidWorldHandler._execute_task`: sleep 100ms, then report
success with the echoed ids and the measured duration. -/
def webExecuteTask (env : WebEnv) (fields : List (String × Json)) : Json :=
  .obj [("task_id", pyDictGet fields "task_id"),
        ("task_type", pyDictGet fields "task_type"),
        ("success", .bool true),
        ("duration", .num (env.t1 - env.t0)),
        ("result", .str "Task completed successfully"),
        ("timestamp", .num env.execTimestamp)]

/-- `AndroidWorldHandler._handle_task`: 400 on a JSON decode error;
on a parsed object, log (when a manager is attached), run the simulated
execution and answer 200; calling `.get` on a non-object body raises an
`AttributeError`, which the inner `except Exception` turns into 500. -/
def handleTask (env : WebEnv) (body : Option Json) : HttpResponse :=
  match body with
  | none => .jsonResp 400 (.obj [("error", .str "Invalid JSON")])
  | some j =>
    match j with
    | .obj fields => .jsonResp 200 (webExecuteTask env fields)
    | other => .jsonResp 500 (.obj [("error", .str (attrErrorMsg other))])

/-- `AndroidWorldHandler.do_GET` routing. -/
def handleGet (env : WebEnv) (path : String) : HttpResponse :=
  if path = "/health" then
    .jsonResp 200
      (match env.obs with
       | some m => getHealthStatus m
       | none =>
          .obj [("status", .str "healthy"),
                ("timestamp", .num env.healthTime),
                ("service", .str "androidworld-worker")])
  else if path = "/ready" then
    .jsonResp 200 (.obj [("status", .str "ready")])
  else if path = "/metrics" then
    .textResp 200 "text/plain" metricsText
  else if path = "/status" then
    .jsonResp 200
      (.obj [("service", .str "androidworld-worker"),
             ("version", .str "1.0.0"),
             ("uptime", .num env.uptime),
             ("environment", .str env.envName),
             ("project_id", .str env.gcpProject),
             ("timestamp", .num env.statusTime)])
  else if path = "/trace" then
    .jsonResp 200
      (match env.obs with
       | some m =>
          .obj [("trace_id", m.traceId), ("span_id", m.spanId),
                ("service", .str "androidworld-worker")]
       | none =>
          .obj [("trace_id", .null), ("span_id", .null),
                ("service", .str "androidworld-worker")])
  else .jsonResp 404 (.obj [("error", .str "Not found")])

/-- `AndroidWorldHandler.do_POST` routing. -/
def handlePost (env : WebEnv) (req : Request) : HttpResponse :=
  if req.path = "/task" then handleTask env req.body
  else .jsonResp 404 (.obj [("error", .str "Not found")])

/-- Request dispatch of the HTTP front door. -/
def handleRequest (env : WebEnv) (req : Request) : HttpResponse :=
  match req.method with
  | .get => handleGet env req.path
  | .post => handlePost env req

/-- Specification notion of a flaky name: among the results sharing
the name there is at least one success and at least one failure. -/
def specFlaky (rs : List TaskResult) (n : String) : Bool :=
  (rs.filter (fun r => r.task_name == n)).any (fun r => r.success) &&
  (rs.filter (fun r => r.task_name == n)).any (fun r => !r.success)

/-- Number of distinct task names that are flaky in the spec sense. -/
def specFlakyCount (rs : List TaskResult) : Nat :=
  ((rs.map (fun r => r.task_name)).dedup).countP (specFlaky rs)

/-- Number of distinct task names occurring in a result history. -/
def distinctNameCount (rs : List TaskResult) : Nat :=
  ((rs.map (fun r => r.task_name)).dedup).length

theorem flakyPredCode_eq_spec (rs : List TaskResult) (n : String) :
    flakyPredCode rs n = specFlaky rs n := by
  rw [Bool.eq_iff_iff]
  simp only [flakyPredCode, specFlaky, Bool.and_eq_true, decide_eq_true_eq,
    List.any_eq_true, Bool.not_eq_true']
  constructor
  · rintro ⟨_h1, h2, h3⟩
    obtain ⟨a, ha, hpa⟩ := List.countP_pos_iff.mp h2
    have hne : ¬ ((rs.filter (fun r => r.task_name == n)).countP
        (fun r => r.success) =
        (rs.filter (fun r => r.task_name == n)).length) := Nat.ne_of_lt h3
    have hnotall : ¬ ∀ r ∈ rs.filter (fun r => r.task_name == n),
        r.success = true := by
      intro hall
      exact hne (List.countP_eq_length.mpr (fun a ha => by
        simpa using hall a ha))
    push_neg at hnotall
    obtain ⟨b, hb, hpb⟩ := hnotall
    exact ⟨⟨a, ha, hpa⟩, ⟨b, hb, by simpa using hpb⟩⟩
  · rintro ⟨⟨a, ha, hpa⟩, ⟨b, hb, hpb⟩⟩
    have h2 : 0 < (rs.filter (fun r => r.task_name == n)).countP
        (fun r => r.success) := List.countP_pos_iff.mpr ⟨a, ha, hpa⟩
    have h3 : (rs.filter (fun r => r.task_name == n)).countP
        (fun r => r.success) <
        (rs.filter (fun r => r.task_name == n)).length := by
      rcases Nat.lt_or_ge ((rs.filter (fun r => r.task_name == n)).countP
          (fun r => r.success))
          ((rs.filter (fun r => r.task_name == n)).length) with h | h
      · exact h
      · exfalso
        have heq := Nat.le_antisymm (List.countP_le_length _) h
        have := List.countP_eq_length.mp heq b hb
        simp [hpb] at this
    exact ⟨Nat.lt_of_le_of_lt h2 h3, h2, h3⟩

/-- Concrete history used in the spec's flakiness example. -/
def mkRes (name : String) (ok : Bool) : TaskResult :=
  { task_id := name, task_name := name, success := ok,
    execution_time := 0, start_time := 0, end_time := 0 }

def exampleFlaky : List TaskResult :=
  [mkRes "X" true, mkRes "X" false, mkRes "X" true,
   mkRes "Y" true, mkRes "Y" true]

def exampleFlakyStats : Stats :=
  { total_tasks := 5, successful_tasks := 4, failed_tasks := 1,
    success_rate := 4/5, avg_time := 0,
    flaky_tasks := 1, flakiness_rate := 1/2 }

unseal Rat.inv Rat.mul Rat.add Rat.sub in
/-- C2: in `get_statistics`, a task name counts as flaky exactly when
its results contain at least one success and at least one failure;
`flaky_tasks` counts such names and `flakiness_rate` is that count
divided by the number of distinct names; on the history X:[true, false,
true], Y:[true, true] this gives `flaky_tasks = 1` and
`flakiness_rate = 0.5`. -/
theorem flakiness_matches_spec :
    (∀ (rs : List TaskResult) (st : Stats), getStatistics rs = some st →
      st.flaky_tasks = specFlakyCount rs ∧
      st.flakiness_rate =
        (specFlakyCount rs : ℚ) / (distinctNameCount rs : ℚ)) ∧
    getStatistics exampleFlaky = some exampleFlakyStats := by
  constructor
  · intro rs st h
    rw [getStatistics] at h
    by_cases hrs : rs.isEmpty
    · simp [hrs] at h
    · rw [if_neg hrs] at h
      have hcount : ((rs.map (fun r => r.task_name)).dedup).countP
          (flakyPredCode rs) = specFlakyCount rs :=
        List.countP_congr (fun x _ => by rw [flakyPredCode_eq_spec])
      have hnames : ((rs.map (fun r => r.task_name)).dedup).isEmpty = false := by
        rw [List.isEmpty_eq_false, Ne, List.dedup_eq_nil,
          List.map_eq_nil_iff]
        exact fun hnil => by simp [hnil] at hrs
      obtain rfl := (Option.some_inj).mp h.symm
      refine ⟨hcount, ?_⟩
      simp only [hnames, Bool.not_false, if_pos, hcount, distinctNameCount]
  · decide

/-- Witness for `flakiness_matches_spec` on the spec's concrete
example. -/
theorem flakiness_matches_spec_witness :
    exampleFlakyStats.flaky_tasks = specFlakyCount exampleFlaky ∧
    exampleFlakyStats.flakiness_rate =
      (specFlakyCount exampleFlaky : ℚ) / (distinctNameCount exampleFlaky : ℚ) :=
  flakiness_matches_spec.1 exampleFlaky exampleFlakyStats
    flakiness_matches_spec.2

/-- C7: both statistics operations return the empty mapping on an empty
history, and on a non-empty all-success history `get_statistics`
reports `success_rate = 1` and `flakiness_rate = 0`. -/
theorem empty_history_statistics :
    getStatistics [] = none ∧ getTaskStatistics [] = none ∧
    ∀ rs : List TaskResult, rs ≠ [] → (∀ r ∈ rs, r.success = true) →
      (getStatistics rs).map (fun st => (st.success_rate, st.flakiness_rate)) =
        some (1, 0) := by
  refine ⟨rfl, rfl, ?_⟩
  intro rs hne hall
  have hrs : rs.isEmpty = false := List.isEmpty_eq_false.mpr hne
  have hlen : 0 < rs.length := List.length_pos.mpr hne
  have hsucc : rs.countP (fun r => r.success) = rs.length :=
    List.countP_eq_length.mpr (fun a ha => by simpa using hall a ha)
  have hflaky : ((rs.map (fun r => r.task_name)).dedup).countP
      (flakyPredCode rs) = 0 := by
    refine List.countP_eq_zero.mpr (fun n _ => ?_)
    rw [flakyPredCode_eq_spec]
    simp only [specFlaky, Bool.and_eq_true, List.any_eq_true,
      Bool.not_eq_true']
    rintro ⟨-, ⟨r, hr, hrfalse⟩⟩
    have := hall r (List.mem_filter.mp hr).1
    simp [this] at hrfalse
  rw [getStatistics, if_neg (by simp [hrs])]
  simp only [Option.map_some]
  have h1 : (if 0 < rs.length then
      ((rs.countP (fun r => r.success) : ℚ)) / (rs.length : ℚ) else 0) = 1 := by
    rw [if_pos hlen, hsucc]
    exact div_self (by exact_mod_cast Nat.pos_iff_ne_zero.mp hlen)
  simp [h1, hflaky]

/-- Witness for `empty_history_statistics` on a one-element all-success
history. -/
theorem empty_history_statistics_witness :
    (getStatistics [mkRes "Z" true]).map
      (fun st => (st.success_rate, st.flakiness_rate)) = some (1, 0) :=
  empty_history_statistics.2.2 [mkRes "Z" true] (by decide) (by decide)

theorem getParam_setParam (ps : List (String × Val)) (k : String) (v : Val) :
    getParam (setParam ps k v) k = (getParam ps k).map (fun _ => v) := by
  induction ps with
  | nil => rfl
  | cons p ps ih =>
      by_cases h : p.1 == k
      · simp [getParam, setParam, List.find?, h]
      · simp only [setParam, List.map_cons, if_neg h]
        simp only [getParam, List.find?, h]
        simpa [getParam, setParam] using ih

/-- C6: every task produced by `generate_task` has a type drawn from
the catalog's types, the randomized hint fields within their `randint`
ranges, the freshly generated id, and is appended to the history; when
the selected template is a navigation template whose parameters carry
`package_name`, that parameter is overwritten with one of the five
known package identifiers. -/
theorem generate_task_contract (g : GenChoices) (history : List Task)
    (hp1 : 1 ≤ g.priority) (hp2 : g.priority ≤ 5)
    (ht1 : 30 ≤ g.timeoutSec) (ht2 : g.timeoutSec ≤ 120)
    (hr : g.retry ≤ 2) :
    (generateTask g history).1.type ∈ taskTemplates.map TaskTemplate.type ∧
    (1 ≤ (generateTask g history).1.priority ∧
      (generateTask g history).1.priority ≤ 5) ∧
    (30 ≤ (generateTask g history).1.timeout ∧
      (generateTask g history).1.timeout ≤ 120) ∧
    (generateTask g history).1.retry_count ≤ 2 ∧
    (generateTask g history).1.id = g.uuid ∧
    (generateTask g history).2 = history ++ [(generateTask g history).1] ∧
    (((taskTemplates.get g.tmpl).type = "navigation" ∧
        (getParam (taskTemplates.get g.tmpl).parameters "package_name").isSome) →
      getParam (generateTask g history).1.parameters "package_name" =
        some (.str (navPackages.get g.pkg)) ∧
      navPackages.get g.pkg ∈ navPackages) := by
  have hmem : taskTemplates.get g.tmpl ∈ taskTemplates :=
    List.get_mem _ _ _
  have hpkgmem : navPackages.get g.pkg ∈ navPackages :=
    List.get_mem _ _ _
  have htype : (genTask g).type = (taskTemplates.get g.tmpl).type := by
    rw [genTask]
    split
    · split <;> rfl
    · rfl
  have hpriority : (genTask g).priority = g.priority := by
    rw [genTask]; split
    · split <;> rfl
    · rfl
  have htimeout : (genTask g).timeout = g.timeoutSec := by
    rw [genTask]; split
    · split <;> rfl
    · rfl
  have hretry : (genTask g).retry_count = g.retry := by
    rw [genTask]; split
    · split <;> rfl
    · rfl
  have hid : (genTask g).id = g.uuid := by
    rw [genTask]; split
    · split <;> rfl
    · rfl
  refine ⟨?_, ?_, ?_, ?_, ?_, rfl, ?_⟩
  · show (genTask g).type ∈ _
    rw [htype]
    exact List.mem_map.mpr ⟨_, hmem, rfl⟩
  · show 1 ≤ (genTask g).priority ∧ (genTask g).priority ≤ 5
    rw [hpriority]; exact ⟨hp1, hp2⟩
  · show 30 ≤ (genTask g).timeout ∧ (genTask g).timeout ≤ 120
    rw [htimeout]; exact ⟨ht1, ht2⟩
  · show (genTask g).retry_count ≤ 2
    rw [hretry]; exact hr
  · exact hid
  · rintro ⟨h1, h2⟩
    refine ⟨?_, hpkgmem⟩
    show getParam (genTask g).parameters "package_name" = _
    obtain ⟨v, hv⟩ := Option.isSome_iff_exists.mp h2
    rw [genTask, if_pos (show (genTaskRaw g).type = "navigation" from h1),
      if_pos (show (getParam (genTaskRaw g).parameters "package_name").isSome
        from h2)]
    show getParam (setParam (genTaskRaw g).parameters "package_name" _)
      "package_name" = _
    rw [getParam_setParam,
      show getParam (genTaskRaw g).parameters "package_name" = some v from hv]
    rfl

/-- A concrete draw for the generator: the first template (a
navigation template carrying `package_name`) with mid-range hints. -/
def sampleChoices : GenChoices :=
  { tmpl := ⟨0, by decide⟩, uuid := "id-0001", priority := 3,
    timeoutSec := 60, retry := 1, pkg := ⟨1, by decide⟩ }

/-- Witness for `generate_task_contract` at a concrete draw. -/
theorem generate_task_contract_witness :
    (generateTask sampleChoices []).1.id = sampleChoices.uuid ∧
    getParam (generateTask sampleChoices []).1.parameters "package_name" =
      some (.str (navPackages.get sampleChoices.pkg)) := by
  have h := generate_task_contract sampleChoices [] (by decide) (by decide)
    (by decide) (by decide) (by decide)
  exact ⟨h.2.2.2.2.1, (h.2.2.2.2.2.2 (by decide)).1⟩

theorem runEpisodesLoop_spec (ep : Nat → EpisodeOutcome) (num : Nat) :
    ∀ (r idx : Nat) (history : List TaskResult),
      runEpisodesLoop ep num r idx history =
        ((List.range' idx r).map (episodeResult ep),
         history ++ (List.range' idx r).filterMap (episodeHistEntry ep),
         (List.range' idx r).countP
           (fun k => decide (k < num) && episodeOk ep k)) := by
  intro r
  induction r with
  | zero => intro idx history; simp [runEpisodesLoop]
  | succ n ih =>
      intro idx history
      rw [runEpisodesLoop]
      cases hep : ep idx with
      | ok env =>
          simp only [runEpisode, ih, List.range'_succ, List.map_cons,
            List.filterMap_cons, List.countP_cons, episodeResult,
            episodeHistEntry, episodeOk, hep]
          simp [Prod.mk.injEq, Nat.add_comm]
      | raised msg t1 t2 =>
          simp only [ih, List.range'_succ, List.map_cons,
            List.filterMap_cons, List.countP_cons, episodeResult,
            episodeHistEntry, episodeOk, hep]
          simp

/-- C1 (amended): `run_multiple_episodes(N)` returns exactly N results;
an episode that raises contributes, at its position, the synthesized
failure result tagged `episode_<k>_failed`; and a 2-second pause is
performed exactly after each non-final episode that completes without
raising (an episode that raises skips its pause). -/
theorem run_multiple_episodes_batch (num : Nat) (ep : Nat → EpisodeOutcome)
    (history : List TaskResult) :
    (runMultipleEpisodes num ep history).1.length = num ∧
    (∀ k msg t1 t2, 1 ≤ k → k ≤ num → ep k = .raised msg t1 t2 →
      (runMultipleEpisodes num ep history).1[k - 1]? =
        some (failedResult k msg t1 t2)) ∧
    (runMultipleEpisodes num ep history).2.2 =
      (List.range' 1 num).countP
        (fun k => decide (k < num) && episodeOk ep k) := by
  rw [runMultipleEpisodes, runEpisodesLoop_spec]
  refine ⟨by simp, ?_, rfl⟩
  intro k msg t1 t2 h1 h2 hep
  have hk : k - 1 < num := by omega
  rw [List.getElem?_map, List.getElem?_range' 1 1 hk]
  have hk1 : 1 + 1 * (k - 1) = k := by omega
  rw [hk1]
  simp [episodeResult, hep]

/-- A concrete environment for an episode that completes normally. -/
def sampleEpisodeEnv : EpisodeEnv :=
  { task := { id := "t0", name := "Open App", type := "navigation",
              description := "", parameters := [],
              expected_outcome := "", priority := 3, timeout := 60,
              retry_count := 1 },
    execResult := { task_id := "t0", task_name := "Open App",
                    success := true, execution_time := 0,
                    start_time := 0, end_time := 0 },
    startT := 0, endT := 0 }

/-- Episode oracle for the pause counterexample: episode 1 raises,
later episodes complete normally. -/
def epPause : Nat → EpisodeOutcome := fun k =>
  if k = 1 then .raised "boom" 0 0 else .ok sampleEpisodeEnv

/-- Witness for `run_multiple_episodes_batch`: in the `epPause` batch
of two episodes, position 0 holds the synthesized failure for
episode 1. -/
theorem run_multiple_episodes_batch_witness :
    (runMultipleEpisodes 2 epPause []).1[0]? =
      some (failedResult 1 "boom" 0 0) :=
  (run_multiple_episodes_batch 2 epPause []).2.1 1 "boom" 0 0
    (by decide) (by decide) rfl

unseal Rat.add Rat.sub Rat.mul Rat.inv in
/-- C1 counterexample: in a batch of two episodes whose first raises,
no 2-second pause is performed at all, contradicting the claim's
unconditional pause between consecutive episodes (which would demand
one pause here). -/
theorem run_multiple_episodes_pause_cex :
    (runMultipleEpisodes 2 epPause []).2.2 = 0 ∧
    (runMultipleEpisodes 2 epPause []).2.2 ≠ 2 - 1 := by
  constructor <;> decide

/-- C9 (amended): the orchestrator's final history extends the initial
one exactly with the timing-patched results of the episodes that
completed normally (results synthesized for raising episodes are not
appended); `run_episode` appends the patched result it returns; and the
timing patch changes `execution_time` only, leaving every other field
of the executor's result untouched. -/
theorem result_history_discipline (num : Nat) (ep : Nat → EpisodeOutcome)
    (history : List TaskResult) :
    (runMultipleEpisodes num ep history).2.1 =
      history ++ (List.range' 1 num).filterMap (episodeHistEntry ep) ∧
    (∀ h : List TaskResult, ∀ env : EpisodeEnv,
      runEpisode h env = (orchPatch env, h ++ [orchPatch env])) ∧
    (∀ env : EpisodeEnv,
      (orchPatch env).task_id = env.execResult.task_id ∧
      (orchPatch env).task_name = env.execResult.task_name ∧
      (orchPatch env).success = env.execResult.success ∧
      (orchPatch env).start_time = env.execResult.start_time ∧
      (orchPatch env).end_time = env.execResult.end_time ∧
      (orchPatch env).error_message = env.execResult.error_message ∧
      (orchPatch env).metrics = env.execResult.metrics ∧
      (orchPatch env).execution_time = env.endT - env.startT) := by
  refine ⟨?_, fun h env => rfl,
    fun env => ⟨rfl, rfl, rfl, rfl, rfl, rfl, rfl, rfl⟩⟩
  rw [runMultipleEpisodes, runEpisodesLoop_spec]

/-- Episode oracle that always raises. -/
def epBoom : Nat → EpisodeOutcome := fun _ => .raised "boom" 1 2

unseal Rat.add Rat.sub Rat.mul Rat.inv in
/-- C9 counterexample: the synthesized failure result for a raising
episode appears in the returned batch list but is not appended to the
orchestrator's result history, contradicting the claim that every
created result is appended to the owning agent's history. -/
theorem synthesized_failure_not_in_history_cex :
    (runMultipleEpisodes 1 epBoom []).1 = [failedResult 1 "boom" 1 2] ∧
    (runMultipleEpisodes 1 epBoom []).2.1 = [] := by
  constructor <;> decide

theorem executeTask_calls (cfg : ExecConfig) (task : Task) (env : ExecEnv)
    (hprep : env.prepare = .ok ()) :
    (executeTask cfg task env).2 =
      (runAndroidworldTask cfg task env.bridge).2 := by
  simp only [executeTask, hprep]
  split <;> rfl

theorem executeTask_handler_failure (cfg : ExecConfig) (task : Task)
    (env : ExecEnv) (hprep : env.prepare = .ok ())
    (hfail : (runAndroidworldTask cfg task env.bridge).1.success = false) :
    (executeTask cfg task env).1.success = false ∧
    (executeTask cfg task env).1.error_message =
      some ((runAndroidworldTask cfg task env.bridge).1.error.getD
        "Unknown execution error") := by
  simp only [executeTask, hprep, hfail]
  exact ⟨rfl, rfl⟩

/-- C3: `execute_task` is total (the handlers catch their own
exceptions, so dispatch never raises and a `TaskResult` is always
produced); its timing fields always bracket the entire dispatch; and
an exception raised during preparation is caught and converted into a
failure result carrying the exception's text, with no bridge call
made. -/
theorem execute_task_total_and_wrapped (cfg : ExecConfig) (task : Task)
    (env : ExecEnv) :
    ((executeTask cfg task env).1.execution_time =
        env.endClock - env.startClock ∧
      (executeTask cfg task env).1.start_time = env.startClock ∧
      (executeTask cfg task env).1.end_time = env.endClock) ∧
    (∀ e, env.prepare = .error e →
      (executeTask cfg task env).1.success = false ∧
      (executeTask cfg task env).1.error_message = some e ∧
      (executeTask cfg task env).2 = []) := by
  constructor
  · unfold executeTask
    cases henv : env.prepare with
    | error e => exact ⟨rfl, rfl, rfl⟩
    | ok u =>
        dsimp only
        split <;> exact ⟨rfl, rfl, rfl⟩
  · intro e he
    simp [executeTask, he]

/-- An environment whose task-file preparation raises. -/
def envPrepFail : ExecEnv :=
  { prepare := .error "boom", bridge := fun _ _ => .completed 0 "" "",
    startClock := 0, endClock := 1 }

/-- Witness for `execute_task_total_and_wrapped`: a preparation
exception becomes a failure result with the exception's text. -/
theorem execute_task_total_and_wrapped_witness :
    (executeTask {} sampleEpisodeEnv.task envPrepFail).1.success = false ∧
    (executeTask {} sampleEpisodeEnv.task envPrepFail).1.error_message =
      some "boom" ∧
    (executeTask {} sampleEpisodeEnv.task envPrepFail).2 = [] :=
  (execute_task_total_and_wrapped {} sampleEpisodeEnv.task envPrepFail).2
    "boom" rfl

/-- C4: a maintenance task without a (non-empty) `package_name`
parameter yields a failure result with the fixed non-empty message
`Missing package name`, and no bridge call is made. -/
theorem maintenance_missing_package (cfg : ExecConfig) (task : Task)
    (env : ExecEnv)
    (htype : task.type = "maintenance")
    (hprep : env.prepare = .ok ())
    (hpkg : (getParamD task.parameters "package_name" (.str "")).truthy
      = false) :
    (executeTask cfg task env).1.success = false ∧
    (executeTask cfg task env).1.error_message =
      some "Missing package name" ∧
    "Missing package name" ≠ "" ∧
    (executeTask cfg task env).2 = [] := by
  have hrun : runAndroidworldTask cfg task env.bridge =
      ({ success := false, error := some "Missing package name" }, []) := by
    rw [runAndroidworldTask, htype]
    simp only [reduceIte, String.reduceEq, if_false]
    rw [executeMaintenanceTask]
    simp [hpkg]
  have hfail := executeTask_handler_failure cfg task env hprep
    (by rw [hrun])
  refine ⟨hfail.1, ?_, by decide, ?_⟩
  · rw [hfail.2, hrun]
    rfl
  · rw [executeTask_calls cfg task env hprep, hrun]

/-- An environment with a benignly completing bridge. -/
def envOkBridge : ExecEnv :=
  { prepare := .ok (), bridge := fun _ _ => .completed 0 "" "",
    startClock := 0, endClock := 1 }

/-- A maintenance task with no parameters at all. -/
def maintNoPkgTask : Task :=
  { id := "m1", name := "Clear App Data", type := "maintenance",
    description := "", parameters := [], expected_outcome := "",
    priority := 3, timeout := 60, retry_count := 1 }

/-- Witness for `maintenance_missing_package`. -/
theorem maintenance_missing_package_witness :
    (executeTask {} maintNoPkgTask envOkBridge).1.success = false ∧
    (executeTask {} maintNoPkgTask envOkBridge).1.error_message =
      some "Missing package name" ∧
    "Missing package name" ≠ "" ∧
    (executeTask {} maintNoPkgTask envOkBridge).2 = [] :=
  maintenance_missing_package {} maintNoPkgTask envOkBridge rfl rfl
    (by decide)

/-- A bridge on which every call times out. -/
def timeoutBridge : Bridge := fun _ _ => .timeout

theorem runAndroidworldTask_timeout (cfg : ExecConfig) (task : Task)
    (hcalls : (runAndroidworldTask cfg task timeoutBridge).2 ≠ []) :
    (runAndroidworldTask cfg task timeoutBridge).1.success = false ∧
    ∃ m, (runAndroidworldTask cfg task timeoutBridge).1.error = some m ∧
      strContains m "timed out" = true := by
  rw [runAndroidworldTask] at hcalls ⊢
  by_cases h1 : task.type = "navigation"
  · rw [if_pos h1]
    exact ⟨rfl, "Task execution timed out", rfl, by decide⟩
  rw [if_neg h1] at hcalls ⊢
  by_cases h2 : task.type = "information_gathering"
  · rw [if_pos h2]
    exact ⟨rfl, "Info gathering timed out", rfl, by decide⟩
  rw [if_neg h2] at hcalls ⊢
  by_cases h3 : task.type = "installation"
  · rw [if_pos h3] at hcalls ⊢
    rw [executeInstallationTask] at hcalls ⊢
    by_cases hv : (!(getParamD task.parameters "apk_path" (.str "")).truthy ||
        !(getParamD task.parameters "package_name" (.str "")).truthy) = true
    · rw [if_pos hv] at hcalls
      exact absurd rfl hcalls
    · rw [if_neg hv]
      exact ⟨rfl, "Installation task timed out", rfl, by decide⟩
  rw [if_neg h3] at hcalls ⊢
  by_cases h4 : task.type = "removal"
  · rw [if_pos h4] at hcalls ⊢
    rw [executeRemovalTask] at hcalls ⊢
    by_cases hv :
        (!(getParamD task.parameters "package_name" (.str "")).truthy) = true
    · rw [if_pos hv] at hcalls
      exact absurd rfl hcalls
    · rw [if_neg hv]
      exact ⟨rfl, "Removal task timed out", rfl, by decide⟩
  rw [if_neg h4] at hcalls ⊢
  by_cases h5 : task.type = "capture"
  · rw [if_pos h5]
    exact ⟨rfl, "Screenshot task timed out", rfl, by decide⟩
  rw [if_neg h5] at hcalls ⊢
  by_cases h6 : task.type = "maintenance"
  · rw [if_pos h6] at hcalls ⊢
    rw [executeMaintenanceTask] at hcalls ⊢
    by_cases hv :
        (!(getParamD task.parameters "package_name" (.str "")).truthy) = true
    · rw [if_pos hv] at hcalls
      exact absurd rfl hcalls
    · rw [if_neg hv]
      exact ⟨rfl, "Maintenance task timed out", rfl, by decide⟩
  rw [if_neg h6]
  exact ⟨rfl, "Generic task timed out", rfl, by decide⟩

/-- C5: whenever a handler's bridge call times out, `execute_task`
reports failure with an error message containing "timed out" (handlers
that make no bridge call are excluded by the `calls ≠ []`
hypothesis). -/
theorem bridge_timeout_result (cfg : ExecConfig) (task : Task)
    (env : ExecEnv)
    (hprep : env.prepare = .ok ())
    (hbr : env.bridge = timeoutBridge)
    (hcalls : (executeTask cfg task env).2 ≠ []) :
    (executeTask cfg task env).1.success = false ∧
    ∃ m, (executeTask cfg task env).1.error_message = some m ∧
      strContains m "timed out" = true := by
  rw [executeTask_calls cfg task env hprep, hbr] at hcalls
  obtain ⟨hsucc, m, herr, hcont⟩ :=
    runAndroidworldTask_timeout cfg task hcalls
  have h := executeTask_handler_failure cfg task env hprep (by rw [hbr, hsucc])
  refine ⟨h.1, m, ?_, hcont⟩
  rw [h.2, hbr, herr]
  rfl

/-- An environment whose bridge always times out. -/
def envTimeout : ExecEnv :=
  { prepare := .ok (), bridge := timeoutBridge,
    startClock := 0, endClock := 1 }

/-- Witness for `bridge_timeout_result` on a navigation task. -/
theorem bridge_timeout_result_witness :
    (executeTask {} sampleEpisodeEnv.task envTimeout).1.success = false ∧
    ∃ m, (executeTask {} sampleEpisodeEnv.task envTimeout).1.error_message =
      some m ∧ strContains m "timed out" = true :=
  bridge_timeout_result {} sampleEpisodeEnv.task envTimeout rfl rfl
    (by decide)

/-- C8 (amended): for a removal task whose `package_name` parameter is
a non-empty string, when the bridge completes normally (no timeout, no
raised exception — a non-string `package_name` would make the
membership test raise a `TypeError`, another case of "unexpected
exception") the removal handler always reports success, with
`removal_simulated` when the package appears in the list-packages
output and `already_removed` otherwise. -/
theorem removal_always_succeeds (task : Task) (s : String)
    (codeF : String → Nat → Int) (outF errF : String → Nat → String)
    (hpkg : getParamD task.parameters "package_name" (.str "") = .str s)
    (hs : s ≠ "") :
    (executeRemovalTask task
      (fun c t => .completed (codeF c t) (outF c t) (errF c t))).1.success
      = true ∧
    (executeRemovalTask task
      (fun c t => .completed (codeF c t) (outF c t) (errF c t))).1.metrics =
      some (if strContains
          (outF ("adb shell pm list packages | grep " ++ s) 15) s then
        [("package_removed", .bool true), ("package_name", Val.str s),
         ("removal_simulated", .bool true)]
      else
        [("package_removed", .bool true), ("package_name", Val.str s),
         ("already_removed", .bool true)]) := by
  have htruthy : (Val.str s).truthy = true := by simp [Val.truthy, hs]
  rw [executeRemovalTask, hpkg]
  simp only [htruthy, Val.fmt, Bool.not_true, Bool.false_eq_true, if_false,
    pyInStr]
  cases h : strContains
      (outF ("adb shell pm list packages | grep " ++ s) 15) s <;>
    simp [h]

/-- A removal task naming an installed package. -/
def removalTask : Task :=
  { id := "r1", name := "Uninstall App", type := "removal",
    description := "", parameters := [("package_name", .str "com.example.testapp")],
    expected_outcome := "", priority := 3, timeout := 60, retry_count := 1 }

/-- Witness for `removal_always_succeeds`. -/
theorem removal_always_succeeds_witness :
    (executeRemovalTask removalTask
      (fun c t => .completed 0 ((fun (_ : String) (_ : Nat) =>
        "package:com.example.testapp") c t) ((fun (_ : String) (_ : Nat) =>
        "") c t))).1.success = true :=
  (removal_always_succeeds removalTask "com.example.testapp" (fun _ _ => 0)
    (fun _ _ => "package:com.example.testapp") (fun _ _ => "")
    rfl (by decide)).1

/-- A bridge completing immediately with exit code 0 and empty
streams. -/
def benignBridge : Bridge := fun _ _ => .completed 0 "" ""

/-- A removal task with no parameters. -/
def removalNoPkgTask : Task :=
  { id := "r2", name := "Uninstall App", type := "removal",
    description := "", parameters := [], expected_outcome := "",
    priority := 3, timeout := 60, retry_count := 1 }

/-- C8 counterexample: a removal task lacking `package_name` fails with
`Missing package name` even though the bridge completes normally, so
the removal handler does not always report success. -/
theorem removal_missing_package_cex :
    (executeRemovalTask removalNoPkgTask benignBridge).1.success = false ∧
    (executeRemovalTask removalNoPkgTask benignBridge).1.error =
      some "Missing package name" := by
  constructor <;> decide

/-- C10 (amended): `POST /task` with a JSON body parsed to an object
returns 200 with the request's `task_id` echoed, `success == true` and
a numeric `duration`; a body that fails JSON parsing yields 400; a GET
to a path outside the route table yields 404; `GET /health` always
yields 200 with `status == "healthy"`.  (A valid JSON body that is not
an object makes `.get` raise, yielding 500 — see the
counterexample.) -/
theorem front_door_contract :
    (∀ (env : WebEnv) (fields : List (String × Json)),
      (handleRequest env
        { method := .post, path := "/task",
          body := some (.obj fields) }).status = 200 ∧
      (handleRequest env
        { method := .post, path := "/task",
          body := some (.obj fields) }).jsonField "task_id" =
        some (pyDictGet fields "task_id") ∧
      (handleRequest env
        { method := .post, path := "/task",
          body := some (.obj fields) }).jsonField "success" =
        some (.bool true) ∧
      (handleRequest env
        { method := .post, path := "/task",
          body := some (.obj fields) }).jsonField "duration" =
        some (.num (env.t1 - env.t0))) ∧
    (∀ env : WebEnv,
      (handleRequest env
        { method := .post, path := "/task", body := none }).status = 400) ∧
    (∀ (env : WebEnv) (p : String),
      p ∉ (["/health", "/ready", "/metrics", "/status", "/trace"] :
        List String) →
      (handleRequest env
        { method := .get, path := p, body := none }).status = 404) ∧
    (∀ env : WebEnv,
      (handleRequest env
        { method := .get, path := "/health", body := none }).status = 200 ∧
      (handleRequest env
        { method := .get, path := "/health", body := none }).jsonField
          "status" = some (.str "healthy")) := by
  refine ⟨fun env fields => ⟨rfl, ?_, ?_, ?_⟩, fun env => rfl,
    fun env p hp => ?_, fun env => ⟨rfl, ?_⟩⟩
  · rfl
  · rfl
  · rfl
  · have h1 : ¬ p = "/health" := fun e => hp (by simp [e])
    have h2 : ¬ p = "/ready" := fun e => hp (by simp [e])
    have h3 : ¬ p = "/metrics" := fun e => hp (by simp [e])
    have h4 : ¬ p = "/status" := fun e => hp (by simp [e])
    have h5 : ¬ p = "/trace" := fun e => hp (by simp [e])
    show (handleGet env p).status = 404
    rw [handleGet, if_neg h1, if_neg h2, if_neg h3, if_neg h4, if_neg h5]
    rfl
  · show (handleGet env "/health").jsonField "status" = some (.str "healthy")
    rw [handleGet, if_pos rfl]
    cases env.obs with
    | some m => rfl
    | none => rfl

/-- A concrete web-server environment without an observability
manager. -/
def sampleWebEnv : WebEnv :=
  { obs := none, healthTime := 0, uptime := 0, statusTime := 0,
    envName := "production", gcpProject := "unknown",
    t0 := 0, t1 := 1/10, execTimestamp := 0 }

/-- The spec's example task body. -/
def sampleTaskBody : List (String × Json) :=
  [("task_id", .str "t1"), ("task_type", .str "demo")]

/-- Witness for `front_door_contract` on the spec's concrete request
examples. -/
theorem front_door_contract_witness :
    (handleRequest sampleWebEnv
      { method := .post, path := "/task",
        body := some (.obj sampleTaskBody) }).jsonField "task_id" =
      some (pyDictGet sampleTaskBody "task_id") ∧
    (handleRequest sampleWebEnv
      { method := .get, path := "/bogus", body := none }).status = 404 ∧
    (handleRequest sampleWebEnv
      { method := .get, path := "/health", body := none }).jsonField
        "status" = some (.str "healthy") :=
  ⟨(front_door_contract.1 sampleWebEnv sampleTaskBody).2.1,
   front_door_contract.2.2.1 sampleWebEnv "/bogus" (by decide),
   (front_door_contract.2.2.2 sampleWebEnv).2⟩

/-- C10 counterexample: `POST /task` with the valid JSON body `[]` (an
array, not an object) returns 500, not 200: `task_data.get` raises an
`AttributeError` that the inner `except Exception` converts to a 500
response, so not every valid JSON body yields 200. -/
theorem front_door_array_body_cex :
    (handleRequest sampleWebEnv
      { method := .post, path := "/task",
        body := some (.arr []) }).status = 500 ∧
    (handleRequest sampleWebEnv
      { method := .post, path := "/task",
        body := some (.arr []) }).status ≠ 200 := by
  constructor
  · rfl
  · decide

end AndroidWorld
